import Mathlib

/-!
Verification of the proxyproto header codec (header.go).

The Go source is shallowly embedded: byte streams are lists of naturals
(each < 256 where it matters), the peekable bufio.Reader is modelled by
list prefixes, and fallible operations return explicit error values.
-/

namespace Proxyproto

/-- Error values declared in header.go (lines 21-33). -/
inductive GoErr where
  | ErrCantReadProtocolVersionAndCommand
  | ErrCantReadAddressFamilyAndProtocol
  | ErrCantReadLength
  | ErrCantResolveSourceUnixAddress
  | ErrCantResolveDestinationUnixAddress
  | ErrNoProxyProtocol
  | ErrUnknownProxyProtocolVersion
  | ErrUnsupportedProtocolVersionAndCommand
  | ErrUnsupportedAddressFamilyAndProtocol
  | ErrInvalidLength
  | ErrInvalidAddress
  | ErrInetFamilyDoesntMatchProtocol
  | ErrInvalidPortNumber
deriving DecidableEq, Repr

/-- Modelled from the spec: the type ProtocolVersionAndCommand is declared
outside header.go (not under src/); the spec enumerates its values as
LOCAL and PROXY. -/
inductive ProtocolVersionAndCommand where
  | LOCAL
  | PROXY
deriving DecidableEq, Repr

/-- Modelled from the spec: IsLocal is declared outside header.go (not under
src/); per the spec, LOCAL means the connection carries no forwarded
identity, and IsLocal tests for that command. -/
def ProtocolVersionAndCommand.IsLocal : ProtocolVersionAndCommand → Bool
  | .LOCAL => true
  | .PROXY => false

/-- Modelled from the spec: the type AddressFamilyAndProtocol is declared
outside header.go (not under src/); the spec enumerates the combined
address-family/protocol values. -/
inductive AddressFamilyAndProtocol where
  | UNSPEC
  | TCPv4
  | UDPv4
  | TCPv6
  | UDPv6
  | UnixStream
  | UnixDatagram
deriving DecidableEq, Repr

/-- Go net.IP is a byte slice; bytes are naturals below 256. -/
def NetIP := List Nat
deriving DecidableEq

/-- Go net.IP.To4: a 4-byte slice is returned as is; a 16-byte slice that is
an IPv4-mapped IPv6 address (ten zero bytes then 0xff 0xff) yields its last
4 bytes; anything else yields nil (modelled as none). -/
def to4 (ip : List Nat) : Option (List Nat) :=
  if ip.length = 4 then some ip
  else if ip.length = 16 ∧ (ip.take 10).all (· = 0) ∧ (ip.drop 10).take 2 = [0xff, 0xff] then
    some (ip.drop 12)
  else none

/-- Lowercase hex rendering of one 16-bit group, no leading zeros (Go's
appendHex in net/ip.go). -/
def hexGroup (g : Nat) : String := String.mk (Nat.toDigits 16 g)

/-- Go's hexString in net/ip.go: every byte as exactly two lowercase hex
digits. -/
def hexString (b : List Nat) : String :=
  String.mk (b.foldr (fun x acc => Nat.digitChar (x / 16 % 16) :: Nat.digitChar (x % 16) :: acc) [])

/-- Group a 16-byte IPv6 address into eight big-endian 16-bit groups. -/
def groups16 : List Nat → List Nat
  | a :: b :: rest => (a * 256 + b) :: groups16 rest
  | _ => []

/-- Scan for the first longest run of zero groups (Go's e0/e1 loop in
net/ip.go IP.String). Arguments: remaining groups, index of the head,
start and length of the zero run currently open, best (start, length) so
far; a run replaces the best only when strictly longer, so the first
longest run wins, as in Go. -/
def scanZeroRun : List Nat → Nat → Nat → Nat → Nat × Nat → Nat × Nat
  | [], _, curStart, curLen, best =>
      if curLen > best.2 then (curStart, curLen) else best
  | g :: rest, idx, curStart, curLen, best =>
      if g = 0 then
        scanZeroRun rest (idx + 1) (if curLen = 0 then idx else curStart) (curLen + 1) best
      else
        scanZeroRun rest (idx + 1) 0 0 (if curLen > best.2 then (curStart, curLen) else best)

/-- Join group renderings with single colons. -/
def joinColon (ss : List String) : String := String.intercalate ":" ss

/-- Go net/ip.go IP.String, IPv6 arm: find the first longest run of at least
two zero groups and compress it to a double colon; otherwise print all eight
groups colon-separated. -/
def ipv6String (ip : List Nat) : String :=
  let gs := groups16 ip
  let best := scanZeroRun gs 0 0 0 (0, 0)
  if best.2 ≤ 1 then joinColon (gs.map hexGroup)
  else
    joinColon ((gs.take best.1).map hexGroup) ++ "::" ++
      joinColon ((gs.drop (best.1 + best.2)).map hexGroup)

/-- Go net.IP.String: empty slice prints <nil>; a To4 address prints as a
dotted quad; a slice that is neither 4-byte-convertible nor 16 bytes long
prints as a question mark followed by its hex bytes; a 16-byte address
prints in compressed IPv6 notation. -/
def netIPString (ip : List Nat) : String :=
  if ip.length = 0 then "<nil>"
  else
    match to4 ip with
    | some p4 =>
        match p4 with
        | [a, b, c, d] => toString a ++ "." ++ toString b ++ "." ++ toString c ++ "." ++ toString d
        | _ => ""
    | none =>
        if ip.length ≠ 16 then "?" ++ hexString ip
        else ipv6String ip

/-- Header, the placeholder for a proxy protocol header (header.go lines
37-45). Version is a byte, ports are uint16, addresses are net.IP byte
slices. -/
structure Header where
  Version : Nat
  Command : ProtocolVersionAndCommand
  TransportProtocol : AddressFamilyAndProtocol
  SourceAddress : List Nat
  DestinationAddress : List Nat
  SourcePort : Nat
  DestinationPort : Nat
deriving DecidableEq, Repr

/-- EqualTo from header.go lines 48-60. Nil pointers are modelled by none.
The source first returns false when either pointer is nil, then returns
true when the receiver's command is local, and otherwise compares transport
protocol, both addresses in string form, and both ports. -/
def EqualTo (header q : Option Header) : Bool :=
  match header, q with
  | none, _ => false
  | some _, none => false
  | some h, some p =>
      if h.Command.IsLocal then true
      else
        decide (h.TransportProtocol = p.TransportProtocol
          ∧ netIPString h.SourceAddress = netIPString p.SourceAddress
          ∧ netIPString h.DestinationAddress = netIPString p.DestinationAddress
          ∧ h.SourcePort = p.SourcePort
          ∧ h.DestinationPort = p.DestinationPort)

/-- SIGV1 from header.go line 18: the 5 ASCII bytes of PROXY. -/
def SIGV1 : List Nat := [0x50, 0x52, 0x4F, 0x58, 0x59]

/-- SIGV2 from header.go line 19: the 12-byte version 2 signature. -/
def SIGV2 : List Nat := [0x0D, 0x0A, 0x0D, 0x0A, 0x00, 0x0D, 0x0A, 0x51, 0x55, 0x49, 0x54, 0x0A]

/-- Model of reader.Peek(13) followed by reslicing inside the buffer. Peek
returns at most 13 bytes; when fewer are available the returned slice is
shorter, but it keeps the capacity of the bufio buffer (at least 16 bytes),
so the reslicings signature[:5] and signature[:12] in Read stay in bounds
and read the buffer's untouched bytes, which are zero for a fresh reader.
The model therefore pads the available prefix with zero bytes up to
length 13. -/
def peek13 (input : List Nat) : List Nat :=
  (input.take 13 ++ List.replicate 13 0).take 13

/-- Outcome of Read (header.go lines 82-94): either control is handed to
parseVersion1 or parseVersion2 (functions outside header.go, hence outside
src/) together with the untouched stream, or the pair (nil,
ErrNoProxyProtocol) is returned with the stream untouched. Each constructor
records the stream as Read leaves it: Peek consumes nothing. -/
inductive ReadResult where
  | parseV1 (rest : List Nat)
  | parseV2 (rest : List Nat)
  | noHeader (err : GoErr) (rest : List Nat)
deriving DecidableEq, Repr

/-- True exactly on the no-signature outcome of Read. -/
def ReadResult.isNoSig : ReadResult → Bool
  | .noHeader _ _ => true
  | _ => false

/-- Read from header.go lines 82-94: peek 13 bytes without consuming,
compare the first 5 with SIGV1, then the first 12 with SIGV2, and dispatch;
when neither signature matches, return nil and ErrNoProxyProtocol with the
stream untouched. -/
def Read (input : List Nat) : ReadResult :=
  if (peek13 input).take 5 = SIGV1 then ReadResult.parseV1 input
  else if (peek13 input).take 12 = SIGV2 then ReadResult.parseV2 input
  else ReadResult.noHeader GoErr.ErrNoProxyProtocol input

/-- Modelled from the spec: the version 1 family keyword emitted for a
transport protocol; only TCP4 and TCP6 have one. -/
def v1FamilyKeyword : AddressFamilyAndProtocol → Option String
  | .TCPv4 => some "TCP4"
  | .TCPv6 => some "TCP6"
  | _ => none

/-- Modelled from the spec: writeVersion1 is declared outside header.go (not
under src/). Per the spec it renders the PROXY line for TCP4 or TCP6 and
the PROXY UNKNOWN line for LOCAL or UNSPEC, terminated by CRLF, writes the
ASCII bytes to the sink, and returns the number of bytes written. -/
def writeVersion1 (h : Header) (sink : List Nat) : Int × Option GoErr × List Nat :=
  let line :=
    if h.Command.IsLocal then "PROXY UNKNOWN\r\n"
    else
      match v1FamilyKeyword h.TransportProtocol with
      | some kw =>
          "PROXY " ++ kw ++ " " ++ netIPString h.SourceAddress ++ " " ++
            netIPString h.DestinationAddress ++ " " ++ toString h.SourcePort ++ " " ++
            toString h.DestinationPort ++ "\r\n"
      | none => "PROXY UNKNOWN\r\n"
  let outBytes := line.data.map Char.toNat
  (Int.ofNat outBytes.length, none, sink ++ outBytes)

/-- Modelled from the spec: the family/protocol byte of the version 2 fixed
header (family in the high nibble, protocol in the low nibble). -/
def afpByte : AddressFamilyAndProtocol → Nat
  | .UNSPEC => 0x00
  | .TCPv4 => 0x11
  | .UDPv4 => 0x12
  | .TCPv6 => 0x21
  | .UDPv6 => 0x22
  | .UnixStream => 0x31
  | .UnixDatagram => 0x32

/-- Modelled from the spec: the fixed address-block size of each family in
the version 2 wire format (12 for IPv4, 36 for IPv6, 216 for Unix). -/
def addrBlockLen : AddressFamilyAndProtocol → Nat
  | .TCPv4 | .UDPv4 => 12
  | .TCPv6 | .UDPv6 => 36
  | .UnixStream | .UnixDatagram => 216
  | .UNSPEC => 0

/-- Pad or truncate a byte list to exactly n bytes, zero-filled. -/
def padTo (n : Nat) (l : List Nat) : List Nat :=
  l.take n ++ List.replicate (n - l.length) 0

/-- Modelled from the spec: writeVersion2 is declared outside header.go (not
under src/). Per the spec it emits the 12-byte signature, the byte
version-shifted-left-4 or-ed with the command nibble, the family/protocol
byte, the big-endian 2-byte address-block length, and the zero-filled
fixed-size address payload, writing to the sink and returning the byte
count. -/
def writeVersion2 (h : Header) (sink : List Nat) : Int × Option GoErr × List Nat :=
  let cmdNibble := match h.Command with
    | .LOCAL => 0x0
    | .PROXY => 0x1
  let blockLen := addrBlockLen h.TransportProtocol
  let ports := [h.SourcePort / 256 % 256, h.SourcePort % 256,
    h.DestinationPort / 256 % 256, h.DestinationPort % 256]
  let payload := match h.TransportProtocol with
    | .TCPv4 | .UDPv4 => padTo 4 h.SourceAddress ++ padTo 4 h.DestinationAddress ++ ports
    | .TCPv6 | .UDPv6 => padTo 16 h.SourceAddress ++ padTo 16 h.DestinationAddress ++ ports
    | .UnixStream | .UnixDatagram => padTo 108 h.SourceAddress ++ padTo 108 h.DestinationAddress
    | .UNSPEC => []
  let outBytes := SIGV2 ++ [0x20 + cmdNibble, afpByte h.TransportProtocol,
    blockLen / 256 % 256, blockLen % 256] ++ payload
  (Int.ofNat outBytes.length, none, sink ++ outBytes)

/-- WriteTo from header.go lines 63-72: dispatch on the Version field;
version 1 and 2 go to the version writers, anything else returns 0 bytes
written and ErrUnknownProxyProtocolVersion without touching the sink. -/
def WriteTo (h : Header) (sink : List Nat) : Int × Option GoErr × List Nat :=
  if h.Version = 1 then writeVersion1 h sink
  else if h.Version = 2 then writeVersion2 h sink
  else (0, some GoErr.ErrUnknownProxyProtocolVersion, sink)

/-! Bridge lemmas: the zero-padded peek agrees with the plain list prefix
whenever the compared signature does not end in a zero byte. -/

theorem peekTake_eq (l : List Nat) (n : Nat) (hn : n ≤ 13) :
    (peek13 l).take n = l.take n ++ List.replicate (n - l.length) 0 := by
  unfold peek13
  rw [List.take_take, List.take_append_eq_append_take, List.take_take, List.take_replicate,
    List.length_take]
  have e1 : min (min n 13) 13 = n := by omega
  have e2 : min (min n 13 - min 13 l.length) 13 = n - l.length := by omega
  rw [e1, e2]

theorem sigTake_iff (l s : List Nat) (n : Nat) (hn : n ≤ 13) (hns : s.length = n)
    (hz : s.getLast? ≠ some 0) :
    (peek13 l).take n = s ↔ l.take n = s := by
  rw [peekTake_eq l n hn]
  rcases le_or_lt n l.length with hl | hl
  · have hz0 : n - l.length = 0 := by omega
    rw [hz0, List.replicate_zero, List.append_nil]
  · have hln : l.take n = l := List.take_of_length_le (by omega)
    rw [hln]
    constructor
    · intro h
      exfalso
      apply hz
      rw [← h]
      obtain ⟨k, hk⟩ : ∃ k, n - l.length = k + 1 := ⟨n - l.length - 1, by omega⟩
      rw [hk, List.replicate_succ', ← List.append_assoc, List.getLast?_concat]
    · intro h
      exfalso
      have hlen : l.length = n := by rw [h, hns]
      omega

/-- Read restated over the raw stream prefix: the zero-padded peek changes
neither signature comparison. -/
theorem read_eval (input : List Nat) :
    Read input =
      (if input.take 5 = SIGV1 then ReadResult.parseV1 input
        else if input.take 12 = SIGV2 then ReadResult.parseV2 input
        else ReadResult.noHeader GoErr.ErrNoProxyProtocol input) := by
  unfold Read
  exact if_congr (sigTake_iff input SIGV1 5 (by omega) (by decide) (by decide)) rfl
    (if_congr (sigTake_iff input SIGV2 12 (by omega) (by decide) (by decide)) rfl rfl)

/-- Shared helper: when neither signature matches, Read returns nil with
ErrNoProxyProtocol and the untouched stream. -/
theorem read_nosig (input : List Nat) (h5 : input.take 5 ≠ SIGV1)
    (h12 : input.take 12 ≠ SIGV2) :
    Read input = ReadResult.noHeader GoErr.ErrNoProxyProtocol input := by
  rw [read_eval, if_neg h5, if_neg h12]

/-! Claim theorems. -/

/-- Claim C1, counterexample: the 5-byte stream holding exactly the ASCII
bytes of PROXY offers fewer than 13 peekable bytes, yet Read does not
degrade to the no-signature outcome: it dispatches to the version 1
parser. -/
theorem read_short_proxy_stream_dispatches_v1 :
    ([0x50, 0x52, 0x4F, 0x58, 0x59] : List Nat).length < 13 ∧
      (Read [0x50, 0x52, 0x4F, 0x58, 0x59]).isNoSig = false ∧
      Read [0x50, 0x52, 0x4F, 0x58, 0x59] = ReadResult.parseV1 [0x50, 0x52, 0x4F, 0x58, 0x59] := by
  decide

/-- Claim C1, amended: for every input stream that offers fewer than 13
peekable bytes and whose prefix matches neither the version 1 nor the
version 2 signature, Read does not crash: the short peek stays in bounds
and detection degrades to the no-signature outcome, returning no header,
the signature-absent error, and the untouched stream. -/
theorem read_short_stream_no_signature (input : List Nat) (_hlen : input.length < 13)
    (h5 : input.take 5 ≠ SIGV1) (h12 : input.take 12 ≠ SIGV2) :
    Read input = ReadResult.noHeader GoErr.ErrNoProxyProtocol input :=
  read_nosig input h5 h12

/-- Witness for the amended claim C1 at the 1-byte stream 0x47. -/
theorem read_short_stream_no_signature_witness :
    Read [0x47] = ReadResult.noHeader GoErr.ErrNoProxyProtocol [0x47] :=
  read_short_stream_no_signature [0x47] (by decide) (by decide) (by decide)

/-- Claim C3: for every input stream whose peeked prefix matches neither
the version 1 signature nor the version 2 signature, Read returns no
header together with ErrNoProxyProtocol, and consumes no bytes: the
stream recorded in the outcome is exactly the input stream. -/
theorem read_no_signature_untouched (input : List Nat) (h5 : input.take 5 ≠ SIGV1)
    (h12 : input.take 12 ≠ SIGV2) :
    Read input = ReadResult.noHeader GoErr.ErrNoProxyProtocol input :=
  read_nosig input h5 h12

/-- Witness for claim C3 at the 14-byte ASCII stream GET / HTTP/1.1. -/
theorem read_no_signature_untouched_witness :
    Read [0x47, 0x45, 0x54, 0x20, 0x2F, 0x20, 0x48, 0x54, 0x54, 0x50, 0x2F, 0x31, 0x2E, 0x31] =
      ReadResult.noHeader GoErr.ErrNoProxyProtocol
        [0x47, 0x45, 0x54, 0x20, 0x2F, 0x20, 0x48, 0x54, 0x54, 0x50, 0x2F, 0x31, 0x2E, 0x31] :=
  read_no_signature_untouched
    [0x47, 0x45, 0x54, 0x20, 0x2F, 0x20, 0x48, 0x54, 0x54, 0x50, 0x2F, 0x31, 0x2E, 0x31]
    (by decide) (by decide)

/-- Claim C8: Read classifies the stream as version 1 exactly when the
first 5 peeked bytes are the ASCII bytes of PROXY, and as version 2
exactly when the first 5 bytes are not that sequence and the first 12
peeked bytes are the version 2 signature; it then dispatches to the
matching version-specific parser. -/
theorem read_classification (input : List Nat) :
    (Read input = ReadResult.parseV1 input ↔ input.take 5 = SIGV1) ∧
      (Read input = ReadResult.parseV2 input ↔
        input.take 5 ≠ SIGV1 ∧ input.take 12 = SIGV2) := by
  rw [read_eval]
  refine ⟨⟨fun h => ?_, fun h5 => by rw [if_pos h5]⟩,
    ⟨fun h => ?_, fun hx => by rw [if_neg hx.1, if_pos hx.2]⟩⟩
  · by_contra h5
    rw [if_neg h5] at h
    by_cases h12 : input.take 12 = SIGV2
    · rw [if_pos h12] at h
      exact ReadResult.noConfusion h
    · rw [if_neg h12] at h
      exact ReadResult.noConfusion h
  · by_cases h5 : input.take 5 = SIGV1
    · rw [if_pos h5] at h
      exact ReadResult.noConfusion h
    · rw [if_neg h5] at h
      by_cases h12 : input.take 12 = SIGV2
      · exact ⟨h5, h12⟩
      · rw [if_neg h12] at h
        exact ReadResult.noConfusion h

/-- Claim C2, counterexample: EqualTo is not symmetric when exactly one of
the two well-formed headers has command LOCAL: a LOCAL receiver compares
equal to a PROXY header with a different source port, but not the other
way around. -/
theorem equalTo_asymmetric_cx :
    EqualTo (some (Header.mk 2 .LOCAL .TCPv4 [] [] 0 0))
        (some (Header.mk 2 .PROXY .TCPv4 [] [] 1 0)) = true ∧
      EqualTo (some (Header.mk 2 .PROXY .TCPv4 [] [] 1 0))
        (some (Header.mk 2 .LOCAL .TCPv4 [] [] 0 0)) = false := by
  decide

/-- Claim C2, amended: EqualTo is reflexive on every non-nil header, and
symmetric for every pair of non-nil headers whose commands are both LOCAL
or both not LOCAL; when exactly one of the two headers has command LOCAL,
symmetry can fail. -/
theorem equalTo_refl_and_symm_when_commands_agree (a b : Header) :
    EqualTo (some a) (some a) = true ∧
      (a.Command.IsLocal = b.Command.IsLocal →
        EqualTo (some a) (some b) = EqualTo (some b) (some a)) := by
  constructor
  · unfold EqualTo
    cases hc : a.Command.IsLocal <;> simp
  · intro hcmd
    by_cases hca : a.Command.IsLocal = true
    · have hcb : b.Command.IsLocal = true := by rw [← hcmd]; exact hca
      simp [EqualTo, hca, hcb]
    · have hcb : ¬b.Command.IsLocal = true := by rw [← hcmd]; exact hca
      show (if a.Command.IsLocal = true then true else _) =
        (if b.Command.IsLocal = true then true else _)
      rw [if_neg hca, if_neg hcb, decide_eq_decide]
      constructor <;> rintro ⟨h1, h2, h3, h4, h5⟩ <;>
        exact ⟨h1.symm, h2.symm, h3.symm, h4.symm, h5.symm⟩

/-- Witness for the amended claim C2 at two concrete PROXY headers. -/
theorem equalTo_refl_and_symm_witness :
    EqualTo (some (Header.mk 1 .PROXY .TCPv4 [10, 0, 0, 1] [10, 0, 0, 2] 80 443))
        (some (Header.mk 1 .PROXY .TCPv4 [10, 0, 0, 1] [10, 0, 0, 2] 80 443)) = true ∧
      EqualTo (some (Header.mk 1 .PROXY .TCPv4 [10, 0, 0, 1] [10, 0, 0, 2] 80 443))
          (some (Header.mk 2 .PROXY .TCPv6 [] [] 8 9)) =
        EqualTo (some (Header.mk 2 .PROXY .TCPv6 [] [] 8 9))
          (some (Header.mk 1 .PROXY .TCPv4 [10, 0, 0, 1] [10, 0, 0, 2] 80 443)) :=
  ⟨(equalTo_refl_and_symm_when_commands_agree
      (Header.mk 1 .PROXY .TCPv4 [10, 0, 0, 1] [10, 0, 0, 2] 80 443)
      (Header.mk 2 .PROXY .TCPv6 [] [] 8 9)).1,
    (equalTo_refl_and_symm_when_commands_agree
      (Header.mk 1 .PROXY .TCPv4 [10, 0, 0, 1] [10, 0, 0, 2] 80 443)
      (Header.mk 2 .PROXY .TCPv6 [] [] 8 9)).2 (by decide)⟩

/-- Claim C5, counterexample: at a LOCAL receiver and a PROXY argument with
a different source port, EqualTo returns true although the pair neither
has two LOCAL commands nor matches on all five compared fields, so the
claimed characterization fails. -/
theorem equalTo_characterization_cx :
    EqualTo (some (Header.mk 1 .LOCAL .UDPv4 [] [] 5 5))
        (some (Header.mk 1 .PROXY .UDPv4 [] [] 6 5)) = true ∧
      ¬(((Header.mk 1 .LOCAL .UDPv4 [] [] 5 5).Command.IsLocal = true ∧
            (Header.mk 1 .PROXY .UDPv4 [] [] 6 5).Command.IsLocal = true) ∨
          ((Header.mk 1 .LOCAL .UDPv4 ([] : List Nat) [] 5 5).TransportProtocol =
              (Header.mk 1 .PROXY .UDPv4 [] [] 6 5).TransportProtocol ∧
            netIPString (Header.mk 1 .LOCAL .UDPv4 [] [] 5 5).SourceAddress =
              netIPString (Header.mk 1 .PROXY .UDPv4 [] [] 6 5).SourceAddress ∧
            netIPString (Header.mk 1 .LOCAL .UDPv4 [] [] 5 5).DestinationAddress =
              netIPString (Header.mk 1 .PROXY .UDPv4 [] [] 6 5).DestinationAddress ∧
            (Header.mk 1 .LOCAL .UDPv4 ([] : List Nat) [] 5 5).SourcePort =
              (Header.mk 1 .PROXY .UDPv4 [] [] 6 5).SourcePort ∧
            (Header.mk 1 .LOCAL .UDPv4 ([] : List Nat) [] 5 5).DestinationPort =
              (Header.mk 1 .PROXY .UDPv4 [] [] 6 5).DestinationPort)) := by
  decide

/-- Claim C5, amended: for every pair of non-nil headers, EqualTo returns
true exactly when the receiver's command is LOCAL, or all five of
transport protocol, source address in string form, destination address in
string form, source port and destination port match exactly. -/
theorem equalTo_characterization (a b : Header) :
    EqualTo (some a) (some b) = true ↔
      (a.Command.IsLocal = true ∨
        (a.TransportProtocol = b.TransportProtocol ∧
          netIPString a.SourceAddress = netIPString b.SourceAddress ∧
          netIPString a.DestinationAddress = netIPString b.DestinationAddress ∧
          a.SourcePort = b.SourcePort ∧
          a.DestinationPort = b.DestinationPort)) := by
  cases hc : a.Command.IsLocal <;> simp [EqualTo, hc]

/-- Claim C6: any two non-nil headers that both have command LOCAL compare
equal under EqualTo, whatever every other field holds. -/
theorem equalTo_local_pairs_equal (v1 v2 : Nat) (tp1 tp2 : AddressFamilyAndProtocol)
    (sa1 sa2 da1 da2 : List Nat) (sp1 sp2 dp1 dp2 : Nat) :
    EqualTo (some (Header.mk v1 .LOCAL tp1 sa1 da1 sp1 dp1))
      (some (Header.mk v2 .LOCAL tp2 sa2 da2 sp2 dp2)) = true := rfl

/-- Claim C7: comparison with a nil header is always false, whichever side
the nil pointer is on, including nil against nil. -/
theorem equalTo_nil_false (h : Option Header) :
    EqualTo h none = false ∧ EqualTo none h = false := by
  refine ⟨?_, rfl⟩
  cases h <;> rfl

/-- Claim C9: a non-nil receiver with command LOCAL compares equal to every
non-nil header, whatever command, transport protocol, addresses or ports
the argument carries. -/
theorem equalTo_local_receiver_equal (v : Nat) (tp : AddressFamilyAndProtocol)
    (sa da : List Nat) (sp dp : Nat) (q : Header) :
    EqualTo (some (Header.mk v .LOCAL tp sa da sp dp)) (some q) = true := rfl

/-- Claim C10: EqualTo reads neither header's Version field nor the
argument's Command field — replacing them changes nothing — and two non-nil
headers with a non-LOCAL receiver compare equal whenever transport
protocol, both address strings and both ports match. -/
theorem equalTo_ignores_version_and_argument_command (a b : Header) (v v' : Nat)
    (c : ProtocolVersionAndCommand) :
    (EqualTo
        (some (Header.mk v a.Command a.TransportProtocol a.SourceAddress
          a.DestinationAddress a.SourcePort a.DestinationPort))
        (some (Header.mk v' c b.TransportProtocol b.SourceAddress
          b.DestinationAddress b.SourcePort b.DestinationPort)) =
      EqualTo (some a) (some b)) ∧
      (a.Command.IsLocal = false →
        a.TransportProtocol = b.TransportProtocol →
        netIPString a.SourceAddress = netIPString b.SourceAddress →
        netIPString a.DestinationAddress = netIPString b.DestinationAddress →
        a.SourcePort = b.SourcePort →
        a.DestinationPort = b.DestinationPort →
        EqualTo (some a) (some b) = true) := by
  constructor
  · rfl
  · intro hc h1 h2 h3 h4 h5
    simp [EqualTo, hc, h1, h2, h3, h4, h5]

/-- Witness for claim C10 at concrete headers whose compared fields match
while Version and the argument's Command differ. -/
theorem equalTo_ignores_version_witness :
    EqualTo (some (Header.mk 1 .PROXY .TCPv4 [1, 2, 3, 4] [5, 6, 7, 8] 80 81))
      (some (Header.mk 9 .LOCAL .TCPv4 [1, 2, 3, 4] [5, 6, 7, 8] 80 81)) = true :=
  (equalTo_ignores_version_and_argument_command
      (Header.mk 1 .PROXY .TCPv4 [1, 2, 3, 4] [5, 6, 7, 8] 80 81)
      (Header.mk 9 .LOCAL .TCPv4 [1, 2, 3, 4] [5, 6, 7, 8] 80 81) 0 0 .LOCAL).2
    (by decide) rfl rfl rfl rfl rfl

/-- Claim C4: for every header whose Version field is neither 1 nor 2,
WriteTo fails with ErrUnknownProxyProtocolVersion, reports 0 bytes
written, and leaves the output sink unchanged. -/
theorem writeTo_unknown_version (h : Header) (sink : List Nat)
    (h1 : h.Version ≠ 1) (h2 : h.Version ≠ 2) :
    WriteTo h sink = (0, some GoErr.ErrUnknownProxyProtocolVersion, sink) := by
  unfold WriteTo
  rw [if_neg h1, if_neg h2]

/-- Witness for claim C4 at a version 3 header and a 1-byte sink. -/
theorem writeTo_unknown_version_witness :
    WriteTo (Header.mk 3 .PROXY .TCPv4 [] [] 0 0) [7] =
      (0, some GoErr.ErrUnknownProxyProtocolVersion, [7]) :=
  writeTo_unknown_version (Header.mk 3 .PROXY .TCPv4 [] [] 0 0) [7] (by decide) (by decide)

end Proxyproto
